import Mathlib

/-!
Verification of the scheduler core of the Parameters module
(src/backend/parameters.py): minute-aligned tick task, sunrise/sunset
edge detection, clock-regression recovery task and checkpoint
persistence.  The Python class state and its operations are shallowly
embedded as pure Lean functions over an explicit state record; the
external collaborators (sun-times provider, event sink, NTP
synchronization) are passed in as inputs or oracles.
-/

namespace Parameters

/-- Interval of the NTP synchronization recovery task, in seconds
(`NTP_SYNC_INTERVAL = 60` in the source). -/
def NTP_SYNC_INTERVAL : Nat := 60

/-- A sunrise or sunset instant as the code reads it: the `datetime`
returned by the sun library is inspected only through its `hour` and
`minute` attributes (edge detection) and through its timestamp and ISO
rendering (stored in the `suns` dictionary). -/
structure SunInstant where
  hour : Nat
  minute : Nat
  timestamp : Int
  iso : String
deriving DecidableEq, Repr

/-- The `self.suns` dictionary: sunrise/sunset timestamps and ISO strings
carried in every now-event payload and returned by `get_sun`. -/
structure Suns where
  sunset : Int
  sunset_iso : String
  sunrise : Int
  sunrise_iso : String
deriving DecidableEq, Repr

/-- The configured position (config field `position`).  Latitude and
longitude are numbers compared against zero; rationals model the Python
floats (only equality with 0 is ever tested). -/
structure Position where
  latitude : Rat
  longitude : Rat
deriving DecidableEq, Repr

/-- A handle to a running periodic task (`cleep` `Task` object as seen
from this module): whether it is currently scheduled, and its firing
period in seconds. -/
structure TaskHandle where
  running : Bool
  period : Nat
deriving DecidableEq, Repr

/-- Output of the external sun-times provider (`self.sun.sunrise()` /
`self.sun.sunset()`) for the configured position and current date. -/
structure SunProviderResult where
  sunrise : SunInstant
  sunset : SunInstant
deriving DecidableEq, Repr

/-- The mutable state of the `Parameters` object that the scheduler
claims touch: the internal sunrise/sunset datetimes, the `suns`
dictionary, the prepared timezone, the two task handles, and the two
config-store fields (`timestamp` checkpoint and `position`). -/
structure ParametersState where
  sunrise : Option SunInstant
  sunset : Option SunInstant
  suns : Suns
  tz : Option String
  time_task : Option TaskHandle
  sync_time_task : Option TaskHandle
  config_timestamp : Nat
  position : Position
deriving DecidableEq, Repr

/-- The time decomposition produced by `__format_time` for one tick:
the raw timestamp plus the calendar fields the tick handler reads. -/
structure TimeSample where
  timestamp : Nat
  iso : String
  year : Nat
  month : Nat
  day : Nat
  hour : Nat
  minute : Nat
  weekday : Nat
  weekday_literal : String
deriving DecidableEq, Repr

/-- Payload of the `parameters.time.now` event: the formatted sample
plus the current `suns` sunrise/sunset timestamps. -/
structure NowParams where
  sample : TimeSample
  sunrise : Int
  sunset : Int
deriving DecidableEq, Repr

/-- Events the tick handler can emit. -/
inductive TickEvent where
  | now (params : NowParams)
  | sunrise
  | sunset
deriving DecidableEq, Repr

/-- `get_sun`: returns the `suns` dictionary. -/
def get_sun (s : ParametersState) : Suns :=
  s.suns

/-- `set_sun`: reset the internal sunrise/sunset datetimes to `None`,
then, only when both configured coordinates are nonzero, store the
provider's instants and refresh the `suns` dictionary. -/
def set_sun (s : ParametersState) (provider : SunProviderResult) : ParametersState :=
  let s0 := { s with sunset := none, sunrise := none }
  if s.position.latitude ≠ 0 ∧ s.position.longitude ≠ 0 then
    { s0 with
      sunset := some provider.sunset,
      sunrise := some provider.sunrise,
      suns := { sunrise := provider.sunrise.timestamp,
                sunrise_iso := provider.sunrise.iso,
                sunset := provider.sunset.timestamp,
                sunset_iso := provider.sunset.iso } }
  else
    s0

/-- Delay, in seconds, before the tick task is started
(`seconds = 60 - (int(time.time()) % 60)`; the `Timer` is armed with
`0 if seconds == 60 else seconds`). -/
def timer_delay (now : Nat) : Nat :=
  let seconds := 60 - now % 60
  if seconds == 60 then 0 else seconds

/-- `_on_start`: compare current time against the persisted checkpoint;
when the difference is negative, create and start the NTP recovery task.
Then create the 60-second tick task, armed after `timer_delay`.
Returns the new state together with the timer delay used. -/
def on_start (s : ParametersState) (now : Nat) : ParametersState × Nat :=
  let s1 :=
    if (now : Int) - (s.config_timestamp : Int) < 0 then
      { s with sync_time_task := some { running := true, period := NTP_SYNC_INTERVAL } }
    else
      s
  ({ s1 with time_task := some { running := true, period := 60 } }, timer_delay now)

/-- `_on_stop`: if the tick task handle exists, stop it.  Nothing else
is touched. -/
def on_stop (s : ParametersState) : ParametersState :=
  match s.time_task with
  | some h => { s with time_task := some { h with running := false } }
  | none => s

/-- One firing of `_sync_time_task`: when the external `sync_time()`
call succeeds, stop the recovery task and release its handle; otherwise
leave everything unchanged. -/
def sync_time_task_step (s : ParametersState) (sync_ok : Bool) : ParametersState :=
  if sync_ok then { s with sync_time_task := none } else s

/-- Result of one firing of `_time_task`: the new state, the events
emitted, and how many times `set_sun` was invoked. -/
structure TickResult where
  state : ParametersState
  events : List TickEvent
  sun_recomputes : Nat
deriving Repr

/-- One firing of `_time_task`: emit the now event; edge-detect sunrise
and sunset by (hour, minute) equality against the sample; recompute sun
times at 00:05; persist the sample timestamp as the new checkpoint
unless the recovery task handle is present. -/
def time_task (s : ParametersState) (sample : TimeSample)
    (provider : SunProviderResult) : TickResult :=
  let nowParams : NowParams :=
    { sample := sample, sunrise := s.suns.sunrise, sunset := s.suns.sunset }
  let sunriseEvents : List TickEvent :=
    match s.sunrise with
    | some sr =>
      if sample.hour = sr.hour ∧ sample.minute = sr.minute then [TickEvent.sunrise] else []
    | none => []
  let sunsetEvents : List TickEvent :=
    match s.sunset with
    | some ss =>
      if sample.hour = ss.hour ∧ sample.minute = ss.minute then [TickEvent.sunset] else []
    | none => []
  let s1 := if sample.hour = 0 ∧ sample.minute = 5 then set_sun s provider else s
  let s2 :=
    if s1.sync_time_task = none then { s1 with config_timestamp := sample.timestamp } else s1
  { state := s2,
    events := TickEvent.now nowParams :: (sunriseEvents ++ sunsetEvents),
    sun_recomputes := if sample.hour = 0 ∧ sample.minute = 5 then 1 else 0 }

/-- A scheduler step during a run: either a tick-task firing (with the
sample formatted at that instant and the provider's answer should a
recompute happen) or a recovery-task firing (with the result of the
external synchronization). -/
inductive SchedStep where
  | tickFire (sample : TimeSample) (provider : SunProviderResult)
  | syncFire (sync_ok : Bool)
deriving Repr

/-- Apply one scheduler step.  A recovery firing can only happen while
the recovery-task handle exists; once the handle is released the step
is a no-op (the task no longer exists). -/
def apply_step (s : ParametersState) : SchedStep → ParametersState
  | SchedStep.tickFire sample provider => (time_task s sample provider).state
  | SchedStep.syncFire ok => if s.sync_time_task.isSome then sync_time_task_step s ok else s

/-- Run a list of scheduler steps from a state. -/
def run_steps (s : ParametersState) : List SchedStep → ParametersState
  | [] => s
  | st :: rest => run_steps (apply_step s st) rest

/-- Number of recovery-task firings that actually happen along a run
(a `syncFire` step fires only while the handle exists). -/
def count_sync_fires (s : ParametersState) : List SchedStep → Nat
  | [] => 0
  | st :: rest =>
    (match st with
     | SchedStep.syncFire _ => if s.sync_time_task.isSome then 1 else 0
     | SchedStep.tickFire _ _ => 0) + count_sync_fires (apply_step s st) rest

/-- Absolute firing times of the tick task: the start instant plus the
alignment delay, then one firing every 60 seconds (the period of the
task created by `_on_start`). -/
def firing_time (t n : Nat) : Nat :=
  t + timer_delay t + 60 * n

/-- One firing of `_time_task` where each event emission may raise
(`EventSink` failure): emissions happen in source order (now, then
sunrise, then sunset) and an exception aborts the rest of the firing,
so neither the 00:05 recompute nor the checkpoint write happens after a
failed send. -/
def time_task_with_send (s : ParametersState) (sample : TimeSample)
    (provider : SunProviderResult)
    (send : TickEvent → Except String Unit) : Except String TickResult :=
  let nowParams : NowParams :=
    { sample := sample, sunrise := s.suns.sunrise, sunset := s.suns.sunset }
  match send (TickEvent.now nowParams) with
  | Except.error e => Except.error e
  | Except.ok _ =>
    let sunriseFires : Bool :=
      match s.sunrise with
      | some sr => decide (sample.hour = sr.hour ∧ sample.minute = sr.minute)
      | none => false
    match (if sunriseFires then send TickEvent.sunrise else Except.ok ()) with
    | Except.error e => Except.error e
    | Except.ok _ =>
      let sunsetFires : Bool :=
        match s.sunset with
        | some ss => decide (sample.hour = ss.hour ∧ sample.minute = ss.minute)
        | none => false
      match (if sunsetFires then send TickEvent.sunset else Except.ok ()) with
      | Except.error e => Except.error e
      | Except.ok _ =>
        let s1 := if sample.hour = 0 ∧ sample.minute = 5 then set_sun s provider else s
        let s2 :=
          if s1.sync_time_task = none then
            { s1 with config_timestamp := sample.timestamp }
          else s1
        Except.ok
          { state := s2,
            events := TickEvent.now nowParams
              :: ((if sunriseFires then [TickEvent.sunrise] else [])
                  ++ (if sunsetFires then [TickEvent.sunset] else [])),
            sun_recomputes := if sample.hour = 0 ∧ sample.minute = 5 then 1 else 0 }

/-- Modelled from the spec: the periodic task runner
(`cleep.libs.internals.task.Task`, not under src/) wraps every firing of
its callback in an exception handler that logs the failure and keeps
the task scheduled, so a failure inside one firing never stops future
firings.  Returns the state after the firing, whether the task is still
running, and the logged error, if any. -/
def task_fire_with_recovery (s : ParametersState) (sample : TimeSample)
    (provider : SunProviderResult)
    (send : TickEvent → Except String Unit) :
    ParametersState × Bool × Option String :=
  match time_task_with_send s sample provider send with
  | Except.ok r => (r.state, true, none)
  | Except.error e => (s, true, some e)

/-- `_configure` prepares the timezone with `timezone(timezone_name)`,
which raises on an invalid name; `_configure` installs no handler, so
the failure propagates to its caller. -/
def configure_set_timezone (s : ParametersState)
    (tz_result : Except String String) : Except String ParametersState :=
  match tz_result with
  | Except.error e => Except.error e
  | Except.ok tzname => Except.ok { s with tz := some tzname }

/-! Concrete fixtures used by witnesses and counterexamples. -/

/-- A provider answer with sunrise 06:30 and sunset 18:45. -/
def testProvider : SunProviderResult :=
  { sunrise := { hour := 6, minute := 30, timestamp := 100, iso := "R" },
    sunset := { hour := 18, minute := 45, timestamp := 200, iso := "S" } }

/-- A baseline state: checkpoint 1000, a configured nonzero position,
no running tasks, empty sun data. -/
def testState : ParametersState :=
  { sunrise := none, sunset := none,
    suns := { sunset := 0, sunset_iso := "", sunrise := 0, sunrise_iso := "" },
    tz := none,
    time_task := none, sync_time_task := none,
    config_timestamp := 1000,
    position := { latitude := 52, longitude := 1 } }

/-- A sample at 06:30 on some day, timestamp 5000. -/
def testSample : TimeSample :=
  { timestamp := 5000, iso := "T", year := 2021, month := 3, day := 4,
    hour := 6, minute := 30, weekday := 3, weekday_literal := "thursday" }

/-- A state with a running recovery task. -/
def testStateSync : ParametersState :=
  { testState with sync_time_task := some { running := true, period := 60 } }

/-- A state whose configured latitude is zero but whose longitude is
nonzero: not the (0, 0) degenerate position. -/
def zeroLatState : ParametersState :=
  { testState with position := { latitude := 0, longitude := 1 } }

/-- A zero-latitude state still carrying sun data from a previously
configured position. -/
def staleSunsState : ParametersState :=
  { zeroLatState with
    sunrise := some { hour := 6, minute := 30, timestamp := 100, iso := "R" },
    sunset := some { hour := 18, minute := 45, timestamp := 200, iso := "S" },
    suns := { sunset := 200, sunset_iso := "S", sunrise := 100, sunrise_iso := "R" } }

/-- A short run: one tick firing then one failed recovery firing. -/
def testSteps : List SchedStep :=
  [SchedStep.tickFire testSample testProvider, SchedStep.syncFire false]

/-- An event sink that fails on every emission. -/
def failSend : TickEvent → Except String Unit :=
  fun _ => Except.error "send failure"

/-! Helper lemmas shared by the claim theorems. -/

theorem set_sun_sync_eq (s : ParametersState) (provider : SunProviderResult) :
    (set_sun s provider).sync_time_task = s.sync_time_task := by
  unfold set_sun
  split <;> rfl

theorem set_sun_cfg_eq (s : ParametersState) (provider : SunProviderResult) :
    (set_sun s provider).config_timestamp = s.config_timestamp := by
  unfold set_sun
  split <;> rfl

theorem time_task_sync_eq (s : ParametersState) (sample : TimeSample)
    (provider : SunProviderResult) :
    (time_task s sample provider).state.sync_time_task = s.sync_time_task := by
  unfold time_task
  by_cases hm : sample.hour = 0 ∧ sample.minute = 5 <;>
    by_cases hs : s.sync_time_task = none <;>
      simp [hm, hs, set_sun_sync_eq]

theorem timer_delay_eq (t : Nat) :
    timer_delay t = if t % 60 = 0 then 0 else 60 - t % 60 := by
  unfold timer_delay
  have h : t % 60 < 60 := Nat.mod_lt _ (by norm_num)
  by_cases h0 : t % 60 = 0
  · simp [h0]
  · have h1 : ¬(60 - t % 60 = 60) := by omega
    simp only [beq_iff_eq, if_neg h1, if_neg h0]

/-- Claim C1: at start-up, a negative difference between current time
and the stored checkpoint creates and starts the 60-second recovery
task; when current time is at least the checkpoint, none is created. -/
theorem startup_regression_spawns_recovery (s : ParametersState) (now : Nat)
    (h : s.sync_time_task = none) :
    ((now : Int) - (s.config_timestamp : Int) < 0 →
      (on_start s now).1.sync_time_task =
        some { running := true, period := NTP_SYNC_INTERVAL }) ∧
    ((s.config_timestamp : Int) ≤ (now : Int) →
      (on_start s now).1.sync_time_task = none) := by
  constructor
  · intro hlt
    simp [on_start, hlt]
  · intro hge
    have hnot : ¬((now : Int) - (s.config_timestamp : Int) < 0) := by omega
    simp [on_start, hnot, h]

theorem startup_regression_spawns_recovery_witness :
    (on_start testState 500).1.sync_time_task =
      some { running := true, period := NTP_SYNC_INTERVAL } ∧
    (on_start testState 2000).1.sync_time_task = none :=
  ⟨(startup_regression_spawns_recovery testState 500 rfl).1 (by decide),
   (startup_regression_spawns_recovery testState 2000 rfl).2 (by decide)⟩

/-- Claim C3: a tick persists the sample timestamp as the checkpoint
exactly when no recovery task handle is present; while one is present
the checkpoint is left unchanged, and a tick after the handle is
released writes that tick's own timestamp. -/
theorem checkpoint_write_iff_no_recovery (s : ParametersState) (sample : TimeSample)
    (provider : SunProviderResult) :
    (time_task s sample provider).state.config_timestamp =
      if s.sync_time_task = none then sample.timestamp else s.config_timestamp := by
  unfold time_task
  by_cases hm : sample.hour = 0 ∧ sample.minute = 5 <;>
    by_cases hs : s.sync_time_task = none <;>
      simp [hm, hs, set_sun_sync_eq, set_sun_cfg_eq]

/-- Claim C4: the first tick firing is delayed by `60 - (t mod 60)`
seconds, or happens immediately when `t mod 60 = 0`; the first firing
lands on a wall-clock minute boundary, and each subsequent firing is
exactly 60 seconds after the previous one (the tick task created by
`_on_start` has period 60). -/
theorem tick_alignment (s : ParametersState) (t n : Nat) :
    (on_start s t).2 = timer_delay t ∧
    timer_delay t = (if t % 60 = 0 then 0 else 60 - t % 60) ∧
    (t + timer_delay t) % 60 = 0 ∧
    firing_time t 0 = t + timer_delay t ∧
    firing_time t (n + 1) = firing_time t n + 60 ∧
    (on_start s t).1.time_task = some { running := true, period := 60 } := by
  refine ⟨rfl, timer_delay_eq t, ?_, ?_, ?_, ?_⟩
  · rw [timer_delay_eq]
    split <;> omega
  · simp [firing_time]
  · simp [firing_time]
    omega
  · unfold on_start
    split <;> rfl

/-- Claim C10: `_on_stop` only stops the tick task handle; every other
field, including a still-running recovery task handle, is unchanged. -/
theorem on_stop_frame (s : ParametersState) :
    on_stop s =
      { s with time_task := s.time_task.map (fun h => { h with running := false }) } ∧
    (on_stop s).sync_time_task = s.sync_time_task := by
  obtain ⟨a1, a2, a3, a4, tt, a6, a7, a8⟩ := s
  constructor
  · cases tt <;> rfl
  · cases tt <;> rfl

theorem run_steps_sync_none (steps : List SchedStep) : ∀ s : ParametersState,
    s.sync_time_task = none →
    count_sync_fires s steps = 0 ∧ (run_steps s steps).sync_time_task = none := by
  induction steps with
  | nil => exact fun s h => ⟨rfl, h⟩
  | cons st rest ih =>
    intro s h
    have hpres : (apply_step s st).sync_time_task = none := by
      cases st with
      | tickFire sample provider =>
        rw [apply_step, time_task_sync_eq]
        exact h
      | syncFire ok => simp [apply_step, h]
    constructor
    · cases st with
      | tickFire sample provider => simpa [count_sync_fires] using (ih _ hpres).1
      | syncFire ok => simp [count_sync_fires, h, (ih _ hpres).1]
    · rw [run_steps]
      exact (ih _ hpres).2

/-- Claim C2: on a recovery-task firing, success stops the task and
releases its handle; failure changes nothing, so the 60-second task
re-fires unchanged.  Once the handle is gone it is never recreated and
the recovery task never fires again for the remainder of the run. -/
theorem recovery_task_lifecycle (s : ParametersState) (h : TaskHandle)
    (steps : List SchedStep) :
    (s.sync_time_task = some h →
      sync_time_task_step s true = { s with sync_time_task := none }) ∧
    sync_time_task_step s false = s ∧
    (s.sync_time_task = none →
      count_sync_fires s steps = 0 ∧ (run_steps s steps).sync_time_task = none) := by
  exact ⟨fun _ => rfl, rfl, fun hn => run_steps_sync_none steps s hn⟩

theorem recovery_task_lifecycle_witness :
    sync_time_task_step testStateSync true = { testStateSync with sync_time_task := none } ∧
    count_sync_fires testState testSteps = 0 ∧
    (run_steps testState testSteps).sync_time_task = none :=
  ⟨(recovery_task_lifecycle testStateSync { running := true, period := 60 } testSteps).1 rfl,
   ((recovery_task_lifecycle testState { running := true, period := 60 } testSteps).2.2 rfl).1,
   ((recovery_task_lifecycle testState { running := true, period := 60 } testSteps).2.2 rfl).2⟩

/-- The claim that sun instants are absent exactly at position (0, 0)
fails on the code: at latitude 0 with nonzero longitude 1 — not the
degenerate (0, 0) position — `set_sun` still leaves both instants
absent, because the code requires both coordinates nonzero. -/
theorem sun_zero_latitude_counterexample :
    ¬(zeroLatState.position.latitude = 0 ∧ zeroLatState.position.longitude = 0) ∧
    (set_sun zeroLatState testProvider).sunrise = none ∧
    (set_sun zeroLatState testProvider).sunset = none := by
  refine ⟨?_, ?_, ?_⟩ <;> decide

/-- Claim C5 (amended): the recompute leaves both instants absent
exactly when latitude = 0 or longitude = 0 (not only at (0, 0)); for
positions with both coordinates nonzero both instants are defined; and
an absent instant never matches edge detection, so no sunrise or sunset
event fires. -/
theorem sun_absent_iff_zero_coordinate (s s2 : ParametersState)
    (provider : SunProviderResult) (sample : TimeSample) :
    (((set_sun s provider).sunrise = none ∧ (set_sun s provider).sunset = none) ↔
      (s.position.latitude = 0 ∨ s.position.longitude = 0)) ∧
    (s2.sunrise = none → TickEvent.sunrise ∉ (time_task s2 sample provider).events) ∧
    (s2.sunset = none → TickEvent.sunset ∉ (time_task s2 sample provider).events) := by
  refine ⟨?_, ?_, ?_⟩
  · have key : ((set_sun s provider).sunrise = none ∧ (set_sun s provider).sunset = none) ↔
        ¬(s.position.latitude ≠ 0 ∧ s.position.longitude ≠ 0) := by
      unfold set_sun
      split
      next hc => simp [hc]
      next hc => simp [hc]
    rw [key]
    tauto
  · intro h2
    unfold time_task
    cases hss : s2.sunset <;> simp [h2, hss]
  · intro h2
    unfold time_task
    cases hsr : s2.sunrise <;> simp [h2, hsr]

theorem sun_absent_iff_zero_coordinate_witness :
    TickEvent.sunrise ∉ (time_task testState testSample testProvider).events ∧
    TickEvent.sunset ∉ (time_task testState testSample testProvider).events :=
  ⟨(sun_absent_iff_zero_coordinate testState testState testProvider testSample).2.1 rfl,
   (sun_absent_iff_zero_coordinate testState testState testProvider testSample).2.2 rfl⟩

/-- Claim C8: a tick recomputes sun times exactly once when the sample
reads 00:05, and never on any other (hour, minute). -/
theorem midnight_recompute_count (s : ParametersState) (sample : TimeSample)
    (provider : SunProviderResult) :
    (time_task s sample provider).sun_recomputes =
      if sample.hour = 0 ∧ sample.minute = 5 then 1 else 0 := rfl

/-- Claim C9: with a zero latitude or longitude, `set_sun` only resets
the internal sunrise/sunset datetimes to `None`; the `suns` dictionary
(returned by `get_sun` and carried in now-event payloads) and every
other field keep their previous values. -/
theorem set_sun_degenerate_frame (s : ParametersState) (provider : SunProviderResult)
    (h : s.position.latitude = 0 ∨ s.position.longitude = 0) :
    set_sun s provider = { s with sunrise := none, sunset := none } ∧
    get_sun (set_sun s provider) = get_sun s := by
  have hc : ¬(s.position.latitude ≠ 0 ∧ s.position.longitude ≠ 0) := by tauto
  constructor
  · unfold set_sun
    rw [if_neg hc]
  · unfold get_sun set_sun
    rw [if_neg hc]

theorem set_sun_degenerate_frame_witness :
    set_sun staleSunsState testProvider =
      { staleSunsState with sunrise := none, sunset := none } ∧
    get_sun (set_sun staleSunsState testProvider) = get_sun staleSunsState :=
  set_sun_degenerate_frame staleSunsState testProvider (Or.inl (by decide))

theorem sunrise_mem_iff (s : ParametersState) (sample : TimeSample)
    (provider : SunProviderResult) :
    TickEvent.sunrise ∈ (time_task s sample provider).events ↔
      ∃ sr, s.sunrise = some sr ∧ sample.hour = sr.hour ∧ sample.minute = sr.minute := by
  unfold time_task
  cases hsr : s.sunrise with
  | none => cases hss : s.sunset <;> simp [hsr, hss]
  | some sr =>
    cases hss : s.sunset with
    | none =>
      by_cases hc : sample.hour = sr.hour ∧ sample.minute = sr.minute <;>
        simp [hsr, hss, hc]
    | some ss =>
      by_cases hc : sample.hour = sr.hour ∧ sample.minute = sr.minute <;>
        by_cases hc2 : sample.hour = ss.hour ∧ sample.minute = ss.minute <;>
          simp [hsr, hss, hc, hc2]

theorem sunset_mem_iff (s : ParametersState) (sample : TimeSample)
    (provider : SunProviderResult) :
    TickEvent.sunset ∈ (time_task s sample provider).events ↔
      ∃ ss, s.sunset = some ss ∧ sample.hour = ss.hour ∧ sample.minute = ss.minute := by
  unfold time_task
  cases hss : s.sunset with
  | none => cases hsr : s.sunrise <;> simp [hsr, hss]
  | some ss =>
    cases hsr : s.sunrise with
    | none =>
      by_cases hc : sample.hour = ss.hour ∧ sample.minute = ss.minute <;>
        simp [hsr, hss, hc]
    | some sr =>
      by_cases hc : sample.hour = ss.hour ∧ sample.minute = ss.minute <;>
        by_cases hc2 : sample.hour = sr.hour ∧ sample.minute = sr.minute <;>
          simp [hsr, hss, hc, hc2]

/-- Claim C6: a tick emits the sunrise event exactly when the sunrise
instant is defined and its (hour, minute) equals the sample's; likewise
for sunset.  Consequently any two ticks that both fire the sunrise
event share the same (hour, minute), so within one day only the single
matching minute's tick fires, with no already-fired flag. -/
theorem sun_edge_trigger_iff (s : ParametersState) (sample t1 t2 : TimeSample)
    (provider : SunProviderResult) :
    (TickEvent.sunrise ∈ (time_task s sample provider).events ↔
      ∃ sr, s.sunrise = some sr ∧ sample.hour = sr.hour ∧ sample.minute = sr.minute) ∧
    (TickEvent.sunset ∈ (time_task s sample provider).events ↔
      ∃ ss, s.sunset = some ss ∧ sample.hour = ss.hour ∧ sample.minute = ss.minute) ∧
    (TickEvent.sunrise ∈ (time_task s t1 provider).events →
      TickEvent.sunrise ∈ (time_task s t2 provider).events →
      t1.hour = t2.hour ∧ t1.minute = t2.minute) := by
  refine ⟨sunrise_mem_iff s sample provider, sunset_mem_iff s sample provider, ?_⟩
  intro h1 h2
  obtain ⟨sr1, hsr1, hh1, hm1⟩ := (sunrise_mem_iff s t1 provider).mp h1
  obtain ⟨sr2, hsr2, hh2, hm2⟩ := (sunrise_mem_iff s t2 provider).mp h2
  rw [hsr1] at hsr2
  cases hsr2
  exact ⟨hh1.trans hh2.symm, hm1.trans hm2.symm⟩

theorem sun_edge_trigger_iff_witness :
    TickEvent.sunrise ∈ (time_task staleSunsState testSample testProvider).events ∧
    (testSample.hour = testSample.hour ∧ testSample.minute = testSample.minute) :=
  ⟨(sun_edge_trigger_iff staleSunsState testSample testSample testSample testProvider).1.mpr
      ⟨{ hour := 6, minute := 30, timestamp := 100, iso := "R" }, rfl, rfl, rfl⟩,
   (sun_edge_trigger_iff staleSunsState testSample testSample testSample testProvider).2.2
      (by decide) (by decide)⟩

/-- Claim C7: a failure of an event emission inside a tick firing is
caught by the task runner and logged, the task stays running and the
state rolls back to before the firing, so future ticks proceed; a
timezone configuration failure in `_configure` propagates to the
caller. -/
theorem tick_failure_swallowed (s : ParametersState) (sample : TimeSample)
    (provider : SunProviderResult) (send : TickEvent → Except String Unit)
    (e tz_err : String) :
    (task_fire_with_recovery s sample provider send).2.1 = true ∧
    (send (TickEvent.now
        { sample := sample, sunrise := s.suns.sunrise, sunset := s.suns.sunset }) =
          Except.error e →
      (task_fire_with_recovery s sample provider send).2.2 = some e ∧
      (task_fire_with_recovery s sample provider send).1 = s) ∧
    configure_set_timezone s (Except.error tz_err) = Except.error tz_err := by
  refine ⟨?_, ?_, rfl⟩
  · unfold task_fire_with_recovery
    cases h : time_task_with_send s sample provider send <;> simp [h]
  · intro hsend
    unfold task_fire_with_recovery time_task_with_send
    simp only [hsend]
    exact ⟨trivial, trivial⟩

theorem tick_failure_swallowed_witness :
    (task_fire_with_recovery testState testSample testProvider failSend).2.1 = true ∧
    (task_fire_with_recovery testState testSample testProvider failSend).2.2 =
      some ("send failure") ∧
    (task_fire_with_recovery testState testSample testProvider failSend).1 = testState :=
  ⟨(tick_failure_swallowed testState testSample testProvider failSend
      ("send failure") ("tz")).1,
   ((tick_failure_swallowed testState testSample testProvider failSend
      ("send failure") ("tz")).2.1 rfl).1,
   ((tick_failure_swallowed testState testSample testProvider failSend
      ("send failure") ("tz")).2.1 rfl).2⟩

end Parameters
